import Mathlib

/-!
Verification of the libsm64-rust wrapper (`src/lib.rs`).

The development shallowly embeds the Rust wrapper code: pure value types
become Lean structures, the stateful native boundary becomes explicit
state passing (a call log plus a count of live `Sm64` instances), machine
integers become `Nat`/`Int` with explicit `% 2 ^ w` where the source
casts, and fallible operations return `Except`/`Option` (`none` models a
Rust panic).  `f32` values are carried opaquely as their 32-bit patterns:
the wrapper never performs floating-point arithmetic, it only moves the
values around.
-/

namespace LibSm64

/-- Opaque model of a Rust `f32` value: the wrapper code only stores and
copies floats, never computes with them, so a float is just its bit
pattern. -/
structure Float32 where
  bits : Nat
deriving DecidableEq

/-- `0.0f32` has bit pattern 0; `Default::default()` for `f32`. -/
def Float32.zero : Float32 := ⟨0⟩

instance : Inhabited Float32 := ⟨Float32.zero⟩

/-- `Point3<T>` from `src/lib.rs` (repr(C), fields x, y, z). -/
structure Point3 (α : Type) where
  x : α
  y : α
  z : α
deriving DecidableEq

/-- `Point3::default()` for a defaultable component type. -/
def Point3.default {α : Type} [Inhabited α] : Point3 α :=
  ⟨Inhabited.default, Inhabited.default, Inhabited.default⟩

instance {α : Type} [Inhabited α] : Inhabited (Point3 α) := ⟨Point3.default⟩

/-- `Point2<T>` from `src/lib.rs` (repr(C), fields x, y). -/
structure Point2 (α : Type) where
  x : α
  y : α
deriving DecidableEq

def Point2.default {α : Type} [Inhabited α] : Point2 α :=
  ⟨Inhabited.default, Inhabited.default⟩

instance {α : Type} [Inhabited α] : Inhabited (Point2 α) := ⟨Point2.default⟩

/-- `Color` from `src/lib.rs` (repr(C), fields r, g, b, each `f32`). -/
structure Color where
  r : Float32
  g : Float32
  b : Float32
deriving DecidableEq

def Color.default : Color := ⟨Float32.zero, Float32.zero, Float32.zero⟩

instance : Inhabited Color := ⟨Color.default⟩

/-- The expected SHA-1 digest literal `VALID_HASH` from `src/lib.rs`. -/
def VALID_HASH : String := "9bef1128717f958171a4afac3ed78ee2bb4e86ce"

/-- The error enumeration `Error` from `src/lib.rs`.  The payload of the
`Io` variant (a `std::io::Error`) is opaque to the wrapper and is dropped
in the model. -/
inductive Error where
  | Io
  | InvalidMarioPosition
  | InvalidRom (hash : String)
deriving DecidableEq

/-- Modelled from the spec: the native constant `SM64_GEO_MAX_TRIANGLES`
("the per-tick triangle maximum") comes from the libsm64 header consumed
by the `libsm64-sys` bindings, which is not under `src/`; the native
library fixes it at 1024. -/
def SM64_GEO_MAX_TRIANGLES : Nat := 1024

/-- Modelled from the spec: the native constant `SM64_TEXTURE_WIDTH` from
the libsm64 header (not under `src/`); the native library fixes it at
`64 * 11`. -/
def SM64_TEXTURE_WIDTH : Nat := 64 * 11

/-- Modelled from the spec: the native constant `SM64_TEXTURE_HEIGHT` from
the libsm64 header (not under `src/`); the native library fixes it at
64. -/
def SM64_TEXTURE_HEIGHT : Nat := 64

/-- One entry of the model's native-call log: which native entry points the
wrapper has invoked, in order. -/
inductive NativeCall where
  | globalInit
  | globalTerminate
  | marioCreate (x y z : Int)
  | marioTick (id : Int)
  | marioDelete (id : Int)
deriving DecidableEq

/-- The process-wide state the embedding threads through the stateful
operations: how many `Sm64` values are currently alive (constructed and
not yet dropped) and the log of native calls made so far. -/
structure ProcState where
  live : Nat
  log : List NativeCall
deriving DecidableEq

/-- The `Sm64` struct from `src/lib.rs`: owns the texture bytes and the ROM
bytes. -/
structure Sm64 where
  texture_data : List Nat
  rom_data : List Nat
deriving DecidableEq

/-- The texture buffer allocated by `Sm64::new`:
`vec![0; (SM64_TEXTURE_WIDTH * SM64_TEXTURE_HEIGHT) as usize * 4]`. -/
def initialTexture : List Nat :=
  List.replicate ((SM64_TEXTURE_WIDTH * SM64_TEXTURE_HEIGHT) * 4) 0

/-- `Sm64::new` from `src/lib.rs`, after the byte source has been read into
`rom_data` (the `read_to_end` step; an I/O failure there surfaces as
`Error::Io` before any of the modelled logic runs).  `sha1Hex` stands for
the external `sha::sha1` digest-to-hex routine, which is a dependency
crate, not code of this repository.  The source performs no check against
`ProcState.live`; the state is threaded only to record which native calls
happen and how many instances are alive. -/
def sm64New (sha1Hex : List Nat → String) (rom_data : List Nat)
    (s : ProcState) : Except Error Sm64 × ProcState :=
  let rom_hash := sha1Hex rom_data
  if rom_hash ≠ VALID_HASH then
    (Except.error (Error.InvalidRom rom_hash), s)
  else
    let texture_data := initialTexture
    (Except.ok { texture_data := texture_data, rom_data := rom_data },
      { live := s.live + 1, log := s.log ++ [NativeCall.globalInit] })

/-- `Drop for Sm64` from `src/lib.rs`: calls `sm64_global_terminate`. -/
def sm64Drop (s : ProcState) : ProcState :=
  { live := s.live - 1, log := s.log ++ [NativeCall.globalTerminate] }

/-- `MarioInput` from `src/lib.rs`. -/
structure MarioInput where
  cam_look_x : Float32
  cam_look_z : Float32
  stick_x : Float32
  stick_y : Float32
  button_a : Bool
  button_b : Bool
  button_z : Bool
deriving DecidableEq

/-- `MarioInput::default()`: all-zero floats, all buttons released. -/
def MarioInput.default : MarioInput :=
  ⟨Float32.zero, Float32.zero, Float32.zero, Float32.zero, false, false, false⟩

/-- The native input record `SM64MarioInputs` (field order per the
bindings: camera look floats, stick floats, three `u8` buttons). -/
structure SM64MarioInputs where
  camLookX : Float32
  camLookZ : Float32
  stickX : Float32
  stickY : Float32
  buttonA : Nat
  buttonB : Nat
  buttonZ : Nat
deriving DecidableEq

/-- `From<MarioInput> for SM64MarioInputs` from `src/lib.rs`; a Rust
`bool as u8` cast is 1 for `true`, 0 for `false`. -/
def marioInputToNative (input : MarioInput) : SM64MarioInputs :=
  { camLookX := input.cam_look_x
    camLookZ := input.cam_look_z
    stickX := input.stick_x
    stickY := input.stick_y
    buttonA := cond input.button_a 1 0
    buttonB := cond input.button_b 1 0
    buttonZ := cond input.button_z 1 0 }

/-- The native state record `SM64MarioState`: position `[f32; 3]`,
velocity `[f32; 3]`, face angle `f32`, health `i16`. -/
structure SM64MarioState where
  position : Float32 × Float32 × Float32
  velocity : Float32 × Float32 × Float32
  faceAngle : Float32
  health : Int
deriving DecidableEq

/-- `MarioState` from `src/lib.rs`. -/
structure MarioState where
  position : Point3 Float32
  velocity : Point3 Float32
  face_angle : Float32
  health : Int
deriving DecidableEq

/-- `From<SM64MarioState> for MarioState` from `src/lib.rs`. -/
def marioStateFromNative (state : SM64MarioState) : MarioState :=
  { position := ⟨state.position.1, state.position.2.1, state.position.2.2⟩
    velocity := ⟨state.velocity.1, state.velocity.2.1, state.velocity.2.2⟩
    face_angle := state.faceAngle
    health := state.health }

/-- `MarioGeometry` from `src/lib.rs`: four parallel scratch vectors plus
the `num_triangles` cursor set by the most recent tick. -/
structure MarioGeometry where
  position : List (Point3 Float32)
  normal : List (Point3 Float32)
  color : List Color
  uv : List (Point2 Float32)
  num_triangles : Nat
deriving DecidableEq

/-- `MarioGeometry::new()` from `src/lib.rs`: each scratch vector holds
`SM64_GEO_MAX_TRIANGLES * 3` default elements; the cursor starts at 0. -/
def MarioGeometry.new : MarioGeometry :=
  { position := List.replicate (SM64_GEO_MAX_TRIANGLES * 3) Point3.default
    normal := List.replicate (SM64_GEO_MAX_TRIANGLES * 3) Point3.default
    color := List.replicate (SM64_GEO_MAX_TRIANGLES * 3) Color.default
    uv := List.replicate (SM64_GEO_MAX_TRIANGLES * 3) Point2.default
    num_triangles := 0 }

/-- The native record `SM64MarioGeometryBuffers`.  The four raw pointers of
the source are modelled by the arrays they point at; `numTrianglesUsed`
is the `u16` triangle-count field. -/
structure SM64MarioGeometryBuffers where
  position : List (Point3 Float32)
  normal : List (Point3 Float32)
  color : List Color
  uv : List (Point2 Float32)
  numTrianglesUsed : Nat
deriving DecidableEq

/-- `From<&mut MarioGeometry> for SM64MarioGeometryBuffers` from
`src/lib.rs`: the pointers alias the scratch vectors, and
`numTrianglesUsed := geo.position.len() as u16 / 3` (the `usize` length is
truncated to `u16` before the division, hence the `% 2 ^ 16`). -/
def buffersFrom (geo : MarioGeometry) : SM64MarioGeometryBuffers :=
  { position := geo.position
    normal := geo.normal
    color := geo.color
    uv := geo.uv
    numTrianglesUsed := geo.position.length % 2 ^ 16 / 3 }

/-- The `Mario` struct from `src/lib.rs`.  The `ctx` borrow of the `Sm64`
is a lifetime-only field with no runtime content and is not modelled. -/
structure Mario where
  id : Int
  geometry : MarioGeometry
deriving DecidableEq

/-- `Mario::new` from `src/lib.rs`. -/
def Mario.new (id : Int) : Mario :=
  { id := id, geometry := MarioGeometry.new }

/-- `Sm64::create_mario` from `src/lib.rs`.  `nativeCreate` stands for the
native `sm64_mario_create(x, y, z)` entry point, which returns a signed id
(negative signalling failure). -/
def createMario (nativeCreate : Int → Int → Int → Int) (x y z : Int) :
    Except Error Mario :=
  let mario_id := nativeCreate x y z
  if mario_id < 0 then
    Except.error Error.InvalidMarioPosition
  else
    Except.ok (Mario.new mario_id)

/-- `Mario::tick` from `src/lib.rs`.  `nativeTick` stands for the native
`sm64_mario_tick(id, inputs, state_out, geometry_inout)` entry point: it
receives the geometry-buffers record built from the scratch arrays (with
`numTrianglesUsed` holding the capacity), overwrites the state record and
the buffers in place, and leaves the number of triangles written in
`numTrianglesUsed`.  In-place mutation through the four pointers is
modelled by the buffers record `nativeTick` returns. -/
def Mario.tick
    (nativeTick : Int → SM64MarioInputs → SM64MarioGeometryBuffers →
      SM64MarioState × SM64MarioGeometryBuffers)
    (m : Mario) (input : MarioInput) : MarioState × Mario :=
  let inputNative := marioInputToNative input
  let buffers := buffersFrom m.geometry
  let out := nativeTick m.id inputNative buffers
  let state := out.1
  let buffersOut := out.2
  let tris := buffersOut.numTrianglesUsed
  let geometry :=
    { position := buffersOut.position
      normal := buffersOut.normal
      color := buffersOut.color
      uv := buffersOut.uv
      num_triangles := tris }
  (marioStateFromNative state, { m with geometry := geometry })

/-- A sequence of ticks, folding `Mario.tick` over a list of inputs. -/
def Mario.ticks
    (nativeTick : Int → SM64MarioInputs → SM64MarioGeometryBuffers →
      SM64MarioState × SM64MarioGeometryBuffers)
    (m : Mario) (inputs : List MarioInput) : Mario :=
  inputs.foldl (fun m input => (Mario.tick nativeTick m input).2) m

/-- `MarioVertex` from `src/lib.rs`. -/
structure MarioVertex where
  position : Point3 Float32
  normal : Point3 Float32
  color : Color
  uv : Point2 Float32
deriving DecidableEq

/-- `MarioGeometry::vertcies` from `src/lib.rs` [sic]: zip the four scratch
vectors, take `num_triangles * 3` entries, build a `MarioVertex` from each
quadruple.  An iterator is modelled by the list of elements it yields. -/
def MarioGeometry.vertcies (g : MarioGeometry) : List MarioVertex :=
  ((((g.position.zip g.normal).zip g.color).zip g.uv).take
      (g.num_triangles * 3)).map
    fun x => { position := x.1.1.1, normal := x.1.1.2, color := x.1.2, uv := x.2 }

/-- Rust's `slice::chunks_exact(3)`: the non-overlapping complete chunks of
three consecutive elements; a trailing remainder of fewer than 3 elements
is dropped.  Each chunk is modelled as the triple of its elements 0, 1, 2
(the only indices the source reads from a chunk). -/
def chunksExact3 {α : Type} : List α → List (α × α × α)
  | a :: b :: c :: rest => (a, b, c) :: chunksExact3 rest
  | _ => []

/-- `MarioGeometry::triangles` from `src/lib.rs`: zip the chunked scratch
vectors, take `num_triangles` chunks, and build the three vertices of each
triangle from components 0, 1, 2 of each chunk. -/
def MarioGeometry.triangles (g : MarioGeometry) :
    List (MarioVertex × MarioVertex × MarioVertex) :=
  ((((chunksExact3 g.position).zip (chunksExact3 g.normal)).zip
        (chunksExact3 g.color)).zip (chunksExact3 g.uv)).take
      g.num_triangles |>.map
    fun x =>
      let positions := x.1.1.1
      let normals := x.1.1.2
      let colors := x.1.2
      let uvs := x.2
      let a : MarioVertex :=
        { position := positions.1, normal := normals.1, color := colors.1,
          uv := uvs.1 }
      let b : MarioVertex :=
        { position := positions.2.1, normal := normals.2.1,
          color := colors.2.1, uv := uvs.2.1 }
      let c : MarioVertex :=
        { position := positions.2.2, normal := normals.2.2,
          color := colors.2.2, uv := uvs.2.2 }
      (a, b, c)

/-- `MarioGeometry::positions` from `src/lib.rs`:
`&self.position[0..self.num_triangles * 3]`.  A Rust range-slicing
expression panics when the upper bound exceeds the length; the panic is
modelled by `none`. -/
def MarioGeometry.positions (g : MarioGeometry) :
    Option (List (Point3 Float32)) :=
  if g.num_triangles * 3 ≤ g.position.length then
    some (g.position.take (g.num_triangles * 3))
  else none

/-- `MarioGeometry::normals` from `src/lib.rs`. -/
def MarioGeometry.normals (g : MarioGeometry) :
    Option (List (Point3 Float32)) :=
  if g.num_triangles * 3 ≤ g.normal.length then
    some (g.normal.take (g.num_triangles * 3))
  else none

/-- `MarioGeometry::colors` from `src/lib.rs`. -/
def MarioGeometry.colors (g : MarioGeometry) : Option (List Color) :=
  if g.num_triangles * 3 ≤ g.color.length then
    some (g.color.take (g.num_triangles * 3))
  else none

/-- `MarioGeometry::uvs` from `src/lib.rs`. -/
def MarioGeometry.uvs (g : MarioGeometry) : Option (List (Point2 Float32)) :=
  if g.num_triangles * 3 ≤ g.uv.length then
    some (g.uv.take (g.num_triangles * 3))
  else none

/-- The `Terrain` enumeration from `src/lib.rs` (`repr(u16)`); each
variant carries the native library's numeric value. -/
inductive Terrain where
  | Grass
  | Stone
  | Snow
  | Sand
  | Spooky
  | Water
  | Slide
  | Mask
deriving DecidableEq

/-- The `repr(u16)` discriminant of each `Terrain` variant, exactly the
literal values in `src/lib.rs`. -/
def Terrain.val : Terrain → Nat
  | .Grass => 0x0000
  | .Stone => 0x0001
  | .Snow => 0x0002
  | .Sand => 0x0003
  | .Spooky => 0x0004
  | .Water => 0x0005
  | .Slide => 0x0006
  | .Mask => 0x0007

/-- The `Surface` enumeration from `src/lib.rs` (`repr(u16)`); each
variant carries the native library's numeric value. -/
inductive Surface where
  | Default
  | Burning
  | _0004
  | Hangable
  | Slow
  | DeathPlane
  | CloseCamera
  | Water
  | FlowingWater
  | Intangible
  | VerySlippery
  | Slippery
  | NotSlippery
  | TtmVines
  | MgrMusic
  | InstantWarp1b
  | InstantWarp1c
  | InstantWarp1d
  | InstantWarp1e
  | ShallowQuicksand
  | DeepQuicksand
  | InstantQuicksand
  | DeepMovingQuicksand
  | ShallowMovingQuicksand
  | Quicksand
  | MovingQuicksand
  | WallMisc
  | NoiseDefault
  | NoiseSlippery
  | HorizontalWind
  | InstantMovingQuicksand
  | Ice
  | LookUpWarp
  | Hard
  | Warp
  | TimerStart
  | TimerEnd
  | HardSlippery
  | HardVerySlippery
  | HardNotSlippery
  | VerticalWind
  | BossFightCamera
  | CameraFreeRoam
  | Thi3Wallkick
  | CameraPlatform
  | CameraMiddle
  | CameraRotateRight
  | CameraRotateLeft
  | CameraBoundary
  | NoiseVerySlippery73
  | NoiseVerySlippery74
  | NoiseVerySlippery
  | NoCamCollision
  | NoCamCollision77
  | NoCamColVerySlippery
  | NoCamColSlippery
  | Switch
  | VanishCapWalls
  | PaintingWobbleA6
  | PaintingWobbleA7
  | PaintingWobbleA8
  | PaintingWobbleA9
  | PaintingWobbleAA
  | PaintingWobbleAB
  | PaintingWobbleAC
  | PaintingWobbleAD
  | PaintingWobbleAE
  | PaintingWobbleAF
  | PaintingWobbleB0
  | PaintingWobbleB1
  | PaintingWobbleB2
  | PaintingWobbleB3
  | PaintingWobbleB4
  | PaintingWobbleB5
  | PaintingWobbleB6
  | PaintingWobbleB7
  | PaintingWobbleB8
  | PaintingWobbleB9
  | PaintingWobbleBA
  | PaintingWobbleBB
  | PaintingWobbleBC
  | PaintingWobbleBD
  | PaintingWobbleBE
  | PaintingWobbleBF
  | PaintingWobbleC0
  | PaintingWobbleC1
  | PaintingWobbleC2
  | PaintingWobbleC3
  | PaintingWobbleC4
  | PaintingWobbleC5
  | PaintingWobbleC6
  | PaintingWobbleC7
  | PaintingWobbleC8
  | PaintingWobbleC9
  | PaintingWobbleCA
  | PaintingWobbleCB
  | PaintingWobbleCC
  | PaintingWobbleCD
  | PaintingWobbleCE
  | PaintingWobbleCF
  | PaintingWobbleD0
  | PaintingWobbleD1
  | PaintingWobbleD2
  | PaintingWarpD3
  | PaintingWarpD4
  | PaintingWarpD5
  | PaintingWarpD6
  | PaintingWarpD7
  | PaintingWarpD8
  | PaintingWarpD9
  | PaintingWarpDA
  | PaintingWarpDB
  | PaintingWarpDC
  | PaintingWarpDD
  | PaintingWarpDE
  | PaintingWarpDF
  | PaintingWarpE0
  | PaintingWarpE1
  | PaintingWarpE2
  | PaintingWarpE3
  | PaintingWarpE4
  | PaintingWarpE5
  | PaintingWarpE6
  | PaintingWarpE7
  | PaintingWarpE8
  | PaintingWarpE9
  | PaintingWarpEA
  | PaintingWarpEB
  | PaintingWarpEC
  | PaintingWarpED
  | PaintingWarpEE
  | PaintingWarpEF
  | PaintingWarpF0
  | PaintingWarpF1
  | PaintingWarpF2
  | PaintingWarpF3
  | TtcPainting1
  | TtcPainting2
  | TtcPainting3
  | PaintingWarpF7
  | PaintingWarpF8
  | PaintingWarpF9
  | PaintingWarpFA
  | PaintingWarpFB
  | PaintingWarpFC
  | WobblingWarp
  | Trapdoor
deriving DecidableEq

/-- The `repr(u16)` discriminant of each `Surface` variant, exactly the
literal values in `src/lib.rs`. -/
def Surface.val : Surface → Nat
  | .Default => 0x0000
  | .Burning => 0x0001
  | ._0004 => 0x0004
  | .Hangable => 0x0005
  | .Slow => 0x0009
  | .DeathPlane => 0x000A
  | .CloseCamera => 0x000B
  | .Water => 0x000D
  | .FlowingWater => 0x000E
  | .Intangible => 0x0012
  | .VerySlippery => 0x0013
  | .Slippery => 0x0014
  | .NotSlippery => 0x0015
  | .TtmVines => 0x0016
  | .MgrMusic => 0x001A
  | .InstantWarp1b => 0x001B
  | .InstantWarp1c => 0x001C
  | .InstantWarp1d => 0x001D
  | .InstantWarp1e => 0x001E
  | .ShallowQuicksand => 0x0021
  | .DeepQuicksand => 0x0022
  | .InstantQuicksand => 0x0023
  | .DeepMovingQuicksand => 0x0024
  | .ShallowMovingQuicksand => 0x0025
  | .Quicksand => 0x0026
  | .MovingQuicksand => 0x0027
  | .WallMisc => 0x0028
  | .NoiseDefault => 0x0029
  | .NoiseSlippery => 0x002A
  | .HorizontalWind => 0x002C
  | .InstantMovingQuicksand => 0x002D
  | .Ice => 0x002E
  | .LookUpWarp => 0x002F
  | .Hard => 0x0030
  | .Warp => 0x0032
  | .TimerStart => 0x0033
  | .TimerEnd => 0x0034
  | .HardSlippery => 0x0035
  | .HardVerySlippery => 0x0036
  | .HardNotSlippery => 0x0037
  | .VerticalWind => 0x0038
  | .BossFightCamera => 0x0065
  | .CameraFreeRoam => 0x0066
  | .Thi3Wallkick => 0x0068
  | .CameraPlatform => 0x0069
  | .CameraMiddle => 0x006E
  | .CameraRotateRight => 0x006F
  | .CameraRotateLeft => 0x0070
  | .CameraBoundary => 0x0072
  | .NoiseVerySlippery73 => 0x0073
  | .NoiseVerySlippery74 => 0x0074
  | .NoiseVerySlippery => 0x0075
  | .NoCamCollision => 0x0076
  | .NoCamCollision77 => 0x0077
  | .NoCamColVerySlippery => 0x0078
  | .NoCamColSlippery => 0x0079
  | .Switch => 0x007A
  | .VanishCapWalls => 0x007B
  | .PaintingWobbleA6 => 0x00A6
  | .PaintingWobbleA7 => 0x00A7
  | .PaintingWobbleA8 => 0x00A8
  | .PaintingWobbleA9 => 0x00A9
  | .PaintingWobbleAA => 0x00AA
  | .PaintingWobbleAB => 0x00AB
  | .PaintingWobbleAC => 0x00AC
  | .PaintingWobbleAD => 0x00AD
  | .PaintingWobbleAE => 0x00AE
  | .PaintingWobbleAF => 0x00AF
  | .PaintingWobbleB0 => 0x00B0
  | .PaintingWobbleB1 => 0x00B1
  | .PaintingWobbleB2 => 0x00B2
  | .PaintingWobbleB3 => 0x00B3
  | .PaintingWobbleB4 => 0x00B4
  | .PaintingWobbleB5 => 0x00B5
  | .PaintingWobbleB6 => 0x00B6
  | .PaintingWobbleB7 => 0x00B7
  | .PaintingWobbleB8 => 0x00B8
  | .PaintingWobbleB9 => 0x00B9
  | .PaintingWobbleBA => 0x00BA
  | .PaintingWobbleBB => 0x00BB
  | .PaintingWobbleBC => 0x00BC
  | .PaintingWobbleBD => 0x00BD
  | .PaintingWobbleBE => 0x00BE
  | .PaintingWobbleBF => 0x00BF
  | .PaintingWobbleC0 => 0x00C0
  | .PaintingWobbleC1 => 0x00C1
  | .PaintingWobbleC2 => 0x00C2
  | .PaintingWobbleC3 => 0x00C3
  | .PaintingWobbleC4 => 0x00C4
  | .PaintingWobbleC5 => 0x00C5
  | .PaintingWobbleC6 => 0x00C6
  | .PaintingWobbleC7 => 0x00C7
  | .PaintingWobbleC8 => 0x00C8
  | .PaintingWobbleC9 => 0x00C9
  | .PaintingWobbleCA => 0x00CA
  | .PaintingWobbleCB => 0x00CB
  | .PaintingWobbleCC => 0x00CC
  | .PaintingWobbleCD => 0x00CD
  | .PaintingWobbleCE => 0x00CE
  | .PaintingWobbleCF => 0x00CF
  | .PaintingWobbleD0 => 0x00D0
  | .PaintingWobbleD1 => 0x00D1
  | .PaintingWobbleD2 => 0x00D2
  | .PaintingWarpD3 => 0x00D3
  | .PaintingWarpD4 => 0x00D4
  | .PaintingWarpD5 => 0x00D5
  | .PaintingWarpD6 => 0x00D6
  | .PaintingWarpD7 => 0x00D7
  | .PaintingWarpD8 => 0x00D8
  | .PaintingWarpD9 => 0x00D9
  | .PaintingWarpDA => 0x00DA
  | .PaintingWarpDB => 0x00DB
  | .PaintingWarpDC => 0x00DC
  | .PaintingWarpDD => 0x00DD
  | .PaintingWarpDE => 0x00DE
  | .PaintingWarpDF => 0x00DF
  | .PaintingWarpE0 => 0x00E0
  | .PaintingWarpE1 => 0x00E1
  | .PaintingWarpE2 => 0x00E2
  | .PaintingWarpE3 => 0x00E3
  | .PaintingWarpE4 => 0x00E4
  | .PaintingWarpE5 => 0x00E5
  | .PaintingWarpE6 => 0x00E6
  | .PaintingWarpE7 => 0x00E7
  | .PaintingWarpE8 => 0x00E8
  | .PaintingWarpE9 => 0x00E9
  | .PaintingWarpEA => 0x00EA
  | .PaintingWarpEB => 0x00EB
  | .PaintingWarpEC => 0x00EC
  | .PaintingWarpED => 0x00ED
  | .PaintingWarpEE => 0x00EE
  | .PaintingWarpEF => 0x00EF
  | .PaintingWarpF0 => 0x00F0
  | .PaintingWarpF1 => 0x00F1
  | .PaintingWarpF2 => 0x00F2
  | .PaintingWarpF3 => 0x00F3
  | .TtcPainting1 => 0x00F4
  | .TtcPainting2 => 0x00F5
  | .TtcPainting3 => 0x00F6
  | .PaintingWarpF7 => 0x00F7
  | .PaintingWarpF8 => 0x00F8
  | .PaintingWarpF9 => 0x00F9
  | .PaintingWarpFA => 0x00FA
  | .PaintingWarpFB => 0x00FB
  | .PaintingWarpFC => 0x00FC
  | .WobblingWarp => 0x00FD
  | .Trapdoor => 0x00FF

/-- `LevelTriangle` from `src/lib.rs` (`repr(C)`): surface kind, `i16`
force, terrain, and a triple of `Point3<i16>` vertices.  `i16` values are
carried as `Int`; the byte encoding below applies the two's-complement
truncation explicitly. -/
structure LevelTriangle where
  kind : Surface
  force : Int
  terrain : Terrain
  vertices : Point3 Int × Point3 Int × Point3 Int
deriving DecidableEq

/-- Little-endian bytes of a 16-bit unsigned value. -/
def u16le (n : Nat) : List Nat := [n % 2 ^ 8, n / 2 ^ 8 % 2 ^ 8]

/-- Little-endian bytes of a 16-bit signed value: two's complement, i.e.
the bytes of `z % 2 ^ 16` (mathematical modulus, hence non-negative). -/
def i16le (z : Int) : List Nat := u16le (z % 2 ^ 16).toNat

/-- Read back a 16-bit unsigned value from two little-endian bytes. -/
def decodeU16 (b0 b1 : Nat) : Nat := b0 + b1 * 2 ^ 8

/-- Read back a 16-bit signed value from two little-endian bytes:
two's-complement interpretation of the raw 16-bit pattern. -/
def decodeI16 (b0 b1 : Nat) : Int :=
  let raw : Nat := b0 + b1 * 2 ^ 8
  if raw < 2 ^ 15 then (raw : Int) else (raw : Int) - 2 ^ 16

/-- The in-memory bytes of a `LevelTriangle` per Rust's `repr(C)` layout
rules applied to `src/lib.rs`: all fields are 16-bit (`repr(u16)` enums,
`i16` force, `Point3<i16>` with fields x, y, z in order), so the record is
packed with no padding — kind, force, terrain, then the nine vertex
components, each field little-endian on the target. -/
def LevelTriangle.bytes (t : LevelTriangle) : List Nat :=
  u16le t.kind.val ++ i16le t.force ++ u16le t.terrain.val ++
    i16le t.vertices.1.x ++ i16le t.vertices.1.y ++ i16le t.vertices.1.z ++
    i16le t.vertices.2.1.x ++ i16le t.vertices.2.1.y ++ i16le t.vertices.2.1.z ++
    i16le t.vertices.2.2.x ++ i16le t.vertices.2.2.y ++ i16le t.vertices.2.2.z

/-- Modelled from the spec: the native surface record (`SM64Surface` of the
`libsm64-sys` bindings, generated from the libsm64 header, which is not
under `src/`).  Per the spec and the `correct_repr` test in `src/lib.rs`
it holds a 16-bit signed type tag, a 16-bit signed force, a 16-bit
unsigned terrain tag, and a 3×3 matrix of 16-bit signed vertex
components (`vertices: [[i16; 3]; 3]`, modelled row by row). -/
structure SM64Surface where
  type_ : Int
  force : Int
  terrain : Nat
  vertices : (Int × Int × Int) × (Int × Int × Int) × (Int × Int × Int)
deriving DecidableEq

/-- The in-memory bytes of an `SM64Surface`: twelve consecutive 16-bit
fields, little-endian, no padding (same `repr(C)` packing argument as for
`LevelTriangle.bytes`). -/
def SM64Surface.bytes (s : SM64Surface) : List Nat :=
  i16le s.type_ ++ i16le s.force ++ u16le s.terrain ++
    i16le s.vertices.1.1 ++ i16le s.vertices.1.2.1 ++ i16le s.vertices.1.2.2 ++
    i16le s.vertices.2.1.1 ++ i16le s.vertices.2.1.2.1 ++ i16le s.vertices.2.1.2.2 ++
    i16le s.vertices.2.2.1 ++ i16le s.vertices.2.2.2.1 ++ i16le s.vertices.2.2.2.2

/-- Reinterpret 24 bytes as an `SM64Surface` (the model of
`std::mem::transmute::<_, SM64Surface>` in the `correct_repr` test):
read the twelve 16-bit fields at their fixed offsets.  Any byte list
whose length is not exactly the record size yields `none`. -/
def parseSM64Surface (bytes : List Nat) : Option SM64Surface :=
  match bytes with
  | [t0, t1, f0, f1, g0, g1,
     a0, a1, b0, b1, c0, c1,
     d0, d1, e0, e1, h0, h1,
     i0, i1, j0, j1, k0, k1] =>
    some
      { type_ := decodeI16 t0 t1
        force := decodeI16 f0 f1
        terrain := decodeU16 g0 g1
        vertices :=
          ((decodeI16 a0 a1, decodeI16 b0 b1, decodeI16 c0 c1),
           (decodeI16 d0 d1, decodeI16 e0 e1, decodeI16 h0 h1),
           (decodeI16 i0 i1, decodeI16 j0 j1, decodeI16 k0 k1)) }
  | _ => none

/-- An `Int` fits in `i16`. -/
def fitsI16 (z : Int) : Prop := -(2 ^ 15) ≤ z ∧ z < 2 ^ 15

instance (z : Int) : Decidable (fitsI16 z) := by
  unfold fitsI16; infer_instance

/-- The buffer sizes fixed at `MarioGeometry` construction: each of the
four scratch vectors holds `SM64_GEO_MAX_TRIANGLES * 3` elements.  No
code path ever resizes them, so every reachable geometry satisfies
this. -/
def MarioGeometry.sized (g : MarioGeometry) : Prop :=
  g.position.length = SM64_GEO_MAX_TRIANGLES * 3 ∧
  g.normal.length = SM64_GEO_MAX_TRIANGLES * 3 ∧
  g.color.length = SM64_GEO_MAX_TRIANGLES * 3 ∧
  g.uv.length = SM64_GEO_MAX_TRIANGLES * 3

instance (g : MarioGeometry) : Decidable g.sized := by
  unfold MarioGeometry.sized; infer_instance

/-- The native contract for `sm64_mario_tick`: the triangle count written
back never exceeds the capacity the caller passed in, and the writes
through the four pointers stay within the arrays (modelled: each returned
array has the length of the one passed in). -/
def tickContract
    (nativeTick : Int → SM64MarioInputs → SM64MarioGeometryBuffers →
      SM64MarioState × SM64MarioGeometryBuffers) : Prop :=
  ∀ id inp g,
    (nativeTick id inp g).2.numTrianglesUsed ≤ g.numTrianglesUsed ∧
    (nativeTick id inp g).2.position.length = g.position.length ∧
    (nativeTick id inp g).2.normal.length = g.normal.length ∧
    (nativeTick id inp g).2.color.length = g.color.length ∧
    (nativeTick id inp g).2.uv.length = g.uv.length

theorem length_chunksExact3 {α : Type} :
    ∀ l : List α, (chunksExact3 l).length = l.length / 3
  | [] => by simp [chunksExact3]
  | [_] => by simp [chunksExact3]
  | [_, _] => by simp [chunksExact3]
  | _ :: _ :: _ :: rest => by
    simp only [chunksExact3, List.length_cons,
      length_chunksExact3 rest]
    omega

theorem marioGeometryNew_sized : MarioGeometry.new.sized := by
  simp [MarioGeometry.sized, MarioGeometry.new]

/-- One step of `Mario.tick` under the native contract: the scratch sizes
are preserved and the stored cursor is at most the capacity. -/
theorem tick_step
    (nativeTick : Int → SM64MarioInputs → SM64MarioGeometryBuffers →
      SM64MarioState × SM64MarioGeometryBuffers)
    (hc : tickContract nativeTick) (m : Mario) (input : MarioInput)
    (hm : m.geometry.sized) :
    (Mario.tick nativeTick m input).2.geometry.sized ∧
    (Mario.tick nativeTick m input).2.geometry.num_triangles ≤
      SM64_GEO_MAX_TRIANGLES := by
  obtain ⟨hp, hn, hcl, hu⟩ := hm
  obtain ⟨c1, c2, c3, c4, c5⟩ :=
    hc m.id (marioInputToNative input) (buffersFrom m.geometry)
  refine ⟨⟨?_, ?_, ?_, ?_⟩, ?_⟩ <;>
    simp only [Mario.tick, MarioGeometry.sized, buffersFrom] at * <;>
    simp_all [SM64_GEO_MAX_TRIANGLES]

/-! ## Theorems -/

/-- C1: for every byte source, `Sm64::new` returns
`Err(InvalidRom(observed_hex))` without invoking native global init when
the observed SHA-1 digest differs from the expected literal, and invokes
native global init exactly once and returns `Ok` when it matches; global
init appears in the call log only in the matching case. -/
theorem sm64New_hash_gate (sha1Hex : List Nat → String) (rom : List Nat)
    (s : ProcState) :
    (sm64New sha1Hex rom s =
      if sha1Hex rom = VALID_HASH then
        (Except.ok { texture_data := initialTexture, rom_data := rom },
          { live := s.live + 1, log := s.log ++ [NativeCall.globalInit] })
      else
        (Except.error (Error.InvalidRom (sha1Hex rom)), s))
    ∧ (NativeCall.globalInit ∈ (sm64New sha1Hex rom s).2.log ↔
        (sha1Hex rom = VALID_HASH ∨ NativeCall.globalInit ∈ s.log)) := by
  by_cases h : sha1Hex rom = VALID_HASH <;>
    simp [sm64New, h, initialTexture]

/-- C2 counterexample: `Sm64::new` has no singleton guard.  Starting from
a process state in which one `Sm64` is already alive (native global init
already in the log), a second call with a source whose digest matches the
expected literal returns `Ok`, leaving two live instances — it does not
fail. -/
theorem sm64New_no_singleton_guard_cex :
    (sm64New (fun _ => VALID_HASH) []
        { live := 1, log := [NativeCall.globalInit] }).1 =
      Except.ok { texture_data := initialTexture, rom_data := [] }
    ∧ (sm64New (fun _ => VALID_HASH) []
        { live := 1, log := [NativeCall.globalInit] }).2.live = 2 := by
  constructor <;> rfl

/-- C2 amended: `Sm64::new` performs no liveness check — even while an
`Sm64` is alive, a second call whose source hashes to the expected
literal succeeds and increments the number of live instances, so a second
live instance is produced rather than the call failing. -/
theorem sm64New_second_instance_ok (sha1Hex : List Nat → String)
    (rom : List Nat) (s : ProcState) (_hlive : 1 ≤ s.live)
    (hhash : sha1Hex rom = VALID_HASH) :
    (sm64New sha1Hex rom s).1 =
      Except.ok { texture_data := initialTexture, rom_data := rom }
    ∧ (sm64New sha1Hex rom s).2.live = s.live + 1 := by
  simp [sm64New, hhash, initialTexture]

/-- Witness for C2's amended theorem at a concrete state with one live
instance and a matching digest. -/
theorem sm64New_second_instance_ok_witness :
    (sm64New (fun _ => VALID_HASH) [] { live := 1, log := [] }).1 =
      Except.ok { texture_data := initialTexture, rom_data := [] }
    ∧ (sm64New (fun _ => VALID_HASH) [] { live := 1, log := [] }).2.live =
      1 + 1 :=
  sm64New_second_instance_ok (fun _ => VALID_HASH) []
    { live := 1, log := [] } (by decide) rfl

/-- C3: `create_mario(x, y, z)` fails with `InvalidMarioPosition` exactly
when the id returned by the native create is negative, and otherwise
returns a Mario handle bound to exactly that id (with a fresh scratch
geometry).  The borrow of the `Sm64` is a compile-time lifetime with no
runtime content. -/
theorem createMario_id_gate (nativeCreate : Int → Int → Int → Int)
    (x y z : Int) :
    createMario nativeCreate x y z =
      if nativeCreate x y z < 0 then Except.error Error.InvalidMarioPosition
      else Except.ok { id := nativeCreate x y z, geometry := MarioGeometry.new } :=
  rfl

/-- Auxiliary induction for C4: under the native tick contract, folding
any input sequence preserves the scratch sizes, and keeps the cursor
within the capacity as soon as it starts there. -/
theorem ticks_invariant
    (nativeTick : Int → SM64MarioInputs → SM64MarioGeometryBuffers →
      SM64MarioState × SM64MarioGeometryBuffers)
    (hc : tickContract nativeTick) :
    ∀ (inputs : List MarioInput) (m : Mario), m.geometry.sized →
      (Mario.ticks nativeTick m inputs).geometry.sized ∧
      (m.geometry.num_triangles ≤ SM64_GEO_MAX_TRIANGLES →
        (Mario.ticks nativeTick m inputs).geometry.num_triangles ≤
          SM64_GEO_MAX_TRIANGLES)
  | [], m, hm => ⟨hm, fun h => h⟩
  | input :: rest, m, hm => by
    obtain ⟨hsized, hle⟩ := tick_step nativeTick hc m input hm
    have ih := ticks_invariant nativeTick hc rest
      (Mario.tick nativeTick m input).2 hsized
    exact ⟨ih.1, fun _ => ih.2 hle⟩

/-- C4: under the native tick contract (the count written back never
exceeds the capacity passed in, and the buffer writes stay in bounds),
after every tick of a Mario handle — i.e. after any nonempty sequence of
ticks from any correctly sized starting state — the stored
`num_triangles` satisfies `num_triangles ≤ SM64_GEO_MAX_TRIANGLES`, and
equivalently the live vertex count `num_triangles * 3` never exceeds the
scratch capacity fixed at construction. -/
theorem ticks_live_count_le_max
    (nativeTick : Int → SM64MarioInputs → SM64MarioGeometryBuffers →
      SM64MarioState × SM64MarioGeometryBuffers)
    (hc : tickContract nativeTick) (m : Mario) (hm : m.geometry.sized)
    (input : MarioInput) (rest : List MarioInput) :
    (Mario.ticks nativeTick m (input :: rest)).geometry.num_triangles ≤
      SM64_GEO_MAX_TRIANGLES ∧
    (Mario.ticks nativeTick m (input :: rest)).geometry.num_triangles * 3 ≤
      (Mario.ticks nativeTick m (input :: rest)).geometry.position.length := by
  obtain ⟨hsized, hle⟩ := tick_step nativeTick hc m input hm
  have ih := ticks_invariant nativeTick hc rest
    (Mario.tick nativeTick m input).2 hsized
  have hcount := ih.2 hle
  refine ⟨hcount, ?_⟩
  have := ih.1.1
  simp only [Mario.ticks, List.foldl_cons] at *
  omega

/-- A concrete native tick obeying the contract: it reports zero triangles
written and leaves the buffers as they are. -/
def nativeTickZero :
    Int → SM64MarioInputs → SM64MarioGeometryBuffers →
      SM64MarioState × SM64MarioGeometryBuffers :=
  fun _ _ g =>
    ({ position := (Float32.zero, Float32.zero, Float32.zero)
       velocity := (Float32.zero, Float32.zero, Float32.zero)
       faceAngle := Float32.zero
       health := 0 },
     { g with numTrianglesUsed := 0 })

theorem nativeTickZero_contract : tickContract nativeTickZero :=
  fun _ _ _ => ⟨Nat.zero_le _, rfl, rfl, rfl, rfl⟩

/-- Witness for C4 at a concrete Mario and a one-tick sequence. -/
theorem ticks_live_count_le_max_witness :
    (Mario.ticks nativeTickZero (Mario.new 0)
        [MarioInput.default]).geometry.num_triangles ≤
      SM64_GEO_MAX_TRIANGLES ∧
    (Mario.ticks nativeTickZero (Mario.new 0)
        [MarioInput.default]).geometry.num_triangles * 3 ≤
      (Mario.ticks nativeTickZero (Mario.new 0)
        [MarioInput.default]).geometry.position.length :=
  ticks_live_count_le_max nativeTickZero nativeTickZero_contract
    (Mario.new 0) marioGeometryNew_sized MarioInput.default []

/-- C6: the geometry-buffers record `Mario.tick` hands to the native tick
is exactly `buffersFrom m.geometry`, whose triangle-count field equals
the full scratch capacity `SM64_GEO_MAX_TRIANGLES` whenever the position
vector has its construction-time size — independent of the
`num_triangles` value left by any previous tick. -/
theorem tick_passes_full_capacity
    (nativeTick : Int → SM64MarioInputs → SM64MarioGeometryBuffers →
      SM64MarioState × SM64MarioGeometryBuffers)
    (m : Mario) (input : MarioInput)
    (hm : m.geometry.position.length = SM64_GEO_MAX_TRIANGLES * 3) :
    (buffersFrom m.geometry).numTrianglesUsed = SM64_GEO_MAX_TRIANGLES ∧
    (∀ n : Nat,
      (buffersFrom { m.geometry with num_triangles := n }).numTrianglesUsed =
        (buffersFrom m.geometry).numTrianglesUsed) ∧
    Mario.tick nativeTick m input =
      (marioStateFromNative
          (nativeTick m.id (marioInputToNative input)
            (buffersFrom m.geometry)).1,
        { m with geometry :=
          { position := (nativeTick m.id (marioInputToNative input)
              (buffersFrom m.geometry)).2.position
            normal := (nativeTick m.id (marioInputToNative input)
              (buffersFrom m.geometry)).2.normal
            color := (nativeTick m.id (marioInputToNative input)
              (buffersFrom m.geometry)).2.color
            uv := (nativeTick m.id (marioInputToNative input)
              (buffersFrom m.geometry)).2.uv
            num_triangles := (nativeTick m.id (marioInputToNative input)
              (buffersFrom m.geometry)).2.numTrianglesUsed } }) := by
  refine ⟨?_, fun n => rfl, rfl⟩
  simp [buffersFrom, hm, SM64_GEO_MAX_TRIANGLES]

/-- A concrete Mario whose cursor holds a stale nonzero value, as if left
by a previous tick. -/
def marioStaleCursor : Mario :=
  { id := 7, geometry := { MarioGeometry.new with num_triangles := 5 } }

/-- Witness for C6 at a concrete Mario whose cursor is nonzero (left by a
"previous tick"), showing the capacity is still what is passed. -/
theorem tick_passes_full_capacity_witness :
    (buffersFrom marioStaleCursor.geometry).numTrianglesUsed =
      SM64_GEO_MAX_TRIANGLES ∧
    (∀ n : Nat,
      (buffersFrom { marioStaleCursor.geometry with
          num_triangles := n }).numTrianglesUsed =
        (buffersFrom marioStaleCursor.geometry).numTrianglesUsed) ∧
    Mario.tick nativeTickZero marioStaleCursor MarioInput.default =
      (marioStateFromNative
          (nativeTickZero marioStaleCursor.id
            (marioInputToNative MarioInput.default)
            (buffersFrom marioStaleCursor.geometry)).1,
        { marioStaleCursor with geometry :=
          { position := (nativeTickZero marioStaleCursor.id
              (marioInputToNative MarioInput.default)
              (buffersFrom marioStaleCursor.geometry)).2.position
            normal := (nativeTickZero marioStaleCursor.id
              (marioInputToNative MarioInput.default)
              (buffersFrom marioStaleCursor.geometry)).2.normal
            color := (nativeTickZero marioStaleCursor.id
              (marioInputToNative MarioInput.default)
              (buffersFrom marioStaleCursor.geometry)).2.color
            uv := (nativeTickZero marioStaleCursor.id
              (marioInputToNative MarioInput.default)
              (buffersFrom marioStaleCursor.geometry)).2.uv
            num_triangles := (nativeTickZero marioStaleCursor.id
              (marioInputToNative MarioInput.default)
              (buffersFrom
                marioStaleCursor.geometry)).2.numTrianglesUsed } }) :=
  tick_passes_full_capacity nativeTickZero marioStaleCursor
    MarioInput.default (by simp [marioStaleCursor, MarioGeometry.new])

/-- C5: whenever the cursor is within the capacity (which every tick
maintains, C4), the four slice accessors succeed (no panic) and each
returns a slice of length exactly `num_triangles * 3`; in particular all
four lengths are equal. -/
theorem slice_accessor_lengths (g : MarioGeometry) (hs : g.sized)
    (hn : g.num_triangles ≤ SM64_GEO_MAX_TRIANGLES) :
    ∃ ps ns cs us,
      g.positions = some ps ∧ g.normals = some ns ∧
      g.colors = some cs ∧ g.uvs = some us ∧
      ps.length = g.num_triangles * 3 ∧ ns.length = g.num_triangles * 3 ∧
      cs.length = g.num_triangles * 3 ∧ us.length = g.num_triangles * 3 := by
  obtain ⟨hp, hnl, hcl, hul⟩ := hs
  have h3 : g.num_triangles * 3 ≤ SM64_GEO_MAX_TRIANGLES * 3 :=
    Nat.mul_le_mul_right 3 hn
  refine ⟨g.position.take (g.num_triangles * 3),
    g.normal.take (g.num_triangles * 3),
    g.color.take (g.num_triangles * 3),
    g.uv.take (g.num_triangles * 3), ?_, ?_, ?_, ?_, ?_, ?_, ?_, ?_⟩ <;>
    simp [MarioGeometry.positions, MarioGeometry.normals,
      MarioGeometry.colors, MarioGeometry.uvs, List.length_take,
      hp, hnl, hcl, hul, h3]

/-- Witness for C5 at the freshly constructed geometry. -/
theorem slice_accessor_lengths_witness :
    ∃ ps ns cs us,
      MarioGeometry.new.positions = some ps ∧
      MarioGeometry.new.normals = some ns ∧
      MarioGeometry.new.colors = some cs ∧
      MarioGeometry.new.uvs = some us ∧
      ps.length = MarioGeometry.new.num_triangles * 3 ∧
      ns.length = MarioGeometry.new.num_triangles * 3 ∧
      cs.length = MarioGeometry.new.num_triangles * 3 ∧
      us.length = MarioGeometry.new.num_triangles * 3 :=
  slice_accessor_lengths MarioGeometry.new marioGeometryNew_sized
    (Nat.zero_le _)

/-- C7: whenever the cursor is within the capacity, `triangles()` yields
exactly `num_triangles` triples of vertices; and, the view being a pure
function of the geometry, obtaining the sequence twice without an
intervening tick yields the same sequence — iteration does not mutate
the geometry. -/
theorem triangles_yield_live_count (g : MarioGeometry) (hs : g.sized)
    (hn : g.num_triangles ≤ SM64_GEO_MAX_TRIANGLES) :
    g.triangles.length = g.num_triangles ∧
    (g.triangles, g.triangles).1 = (g.triangles, g.triangles).2 := by
  obtain ⟨hp, hnl, hcl, hul⟩ := hs
  refine ⟨?_, rfl⟩
  simp only [MarioGeometry.triangles, List.length_map, List.length_take,
    List.length_zip, length_chunksExact3, hp, hnl, hcl, hul,
    SM64_GEO_MAX_TRIANGLES] at *
  omega

/-- Witness for C7 at a concrete geometry with a nonzero cursor. -/
theorem triangles_yield_live_count_witness :
    marioStaleCursor.geometry.triangles.length =
      marioStaleCursor.geometry.num_triangles ∧
    (marioStaleCursor.geometry.triangles,
        marioStaleCursor.geometry.triangles).1 =
      (marioStaleCursor.geometry.triangles,
        marioStaleCursor.geometry.triangles).2 :=
  triangles_yield_live_count marioStaleCursor.geometry
    (by simp [marioStaleCursor, MarioGeometry.sized, MarioGeometry.new])
    (by decide)

/-- C9: immediately after `create_mario` succeeds and before the first
tick, the geometry view is empty — cursor 0, all four slice accessors
return empty slices, and `vertcies()` and `triangles()` yield nothing. -/
theorem fresh_mario_geometry_empty (nativeCreate : Int → Int → Int → Int)
    (x y z : Int) (m : Mario)
    (h : createMario nativeCreate x y z = Except.ok m) :
    m.geometry.num_triangles = 0 ∧
    m.geometry.positions = some [] ∧ m.geometry.normals = some [] ∧
    m.geometry.colors = some [] ∧ m.geometry.uvs = some [] ∧
    m.geometry.vertcies = [] ∧ m.geometry.triangles = [] := by
  by_cases hneg : nativeCreate x y z < 0
  · simp [createMario, hneg] at h
  · simp only [createMario, if_neg hneg, Except.ok.injEq] at h
    subst h
    simp [Mario.new, MarioGeometry.new, MarioGeometry.positions,
      MarioGeometry.normals, MarioGeometry.colors, MarioGeometry.uvs,
      MarioGeometry.vertcies, MarioGeometry.triangles]

/-- Witness for C9 with a native create that returns id 5. -/
theorem fresh_mario_geometry_empty_witness :
    (Mario.new 5).geometry.num_triangles = 0 ∧
    (Mario.new 5).geometry.positions = some [] ∧
    (Mario.new 5).geometry.normals = some [] ∧
    (Mario.new 5).geometry.colors = some [] ∧
    (Mario.new 5).geometry.uvs = some [] ∧
    (Mario.new 5).geometry.vertcies = [] ∧
    (Mario.new 5).geometry.triangles = [] :=
  fresh_mario_geometry_empty (fun _ _ _ => 5) 0 0 0 (Mario.new 5) rfl

/-- C10: for every cursor value, the iterator accessors are total and
truncate to the fixed buffers — `vertcies()` yields at most
`SM64_GEO_MAX_TRIANGLES * 3` vertices and `triangles()` at most
`SM64_GEO_MAX_TRIANGLES` triples — while each slice accessor indexes
in-bounds (returns `some`, i.e. does not panic) exactly when
`num_triangles ≤ SM64_GEO_MAX_TRIANGLES`. -/
theorem iterator_truncation_slice_guard (g : MarioGeometry)
    (hs : g.sized) :
    g.vertcies.length ≤ SM64_GEO_MAX_TRIANGLES * 3 ∧
    g.triangles.length ≤ SM64_GEO_MAX_TRIANGLES ∧
    (g.positions.isSome ↔ g.num_triangles ≤ SM64_GEO_MAX_TRIANGLES) ∧
    (g.normals.isSome ↔ g.num_triangles ≤ SM64_GEO_MAX_TRIANGLES) ∧
    (g.colors.isSome ↔ g.num_triangles ≤ SM64_GEO_MAX_TRIANGLES) ∧
    (g.uvs.isSome ↔ g.num_triangles ≤ SM64_GEO_MAX_TRIANGLES) := by
  obtain ⟨hp, hnl, hcl, hul⟩ := hs
  refine ⟨?_, ?_, ?_, ?_, ?_, ?_⟩ <;>
    simp [MarioGeometry.vertcies, MarioGeometry.triangles,
      MarioGeometry.positions, MarioGeometry.normals,
      MarioGeometry.colors, MarioGeometry.uvs, List.length_take,
      List.length_zip, length_chunksExact3, hp, hnl, hcl, hul,
      SM64_GEO_MAX_TRIANGLES] <;>
    omega

/-- A geometry whose cursor exceeds the capacity, unreachable through the
wrapper but within the type. -/
def geometryOverflowCursor : MarioGeometry :=
  { MarioGeometry.new with num_triangles := 5000 }

/-- Witness for C10 at a cursor beyond the capacity: the iterators still
yield bounded output and every slice accessor refuses (would panic). -/
theorem iterator_truncation_slice_guard_witness :
    geometryOverflowCursor.vertcies.length ≤ SM64_GEO_MAX_TRIANGLES * 3 ∧
    geometryOverflowCursor.triangles.length ≤ SM64_GEO_MAX_TRIANGLES ∧
    (geometryOverflowCursor.positions.isSome ↔
      geometryOverflowCursor.num_triangles ≤ SM64_GEO_MAX_TRIANGLES) ∧
    (geometryOverflowCursor.normals.isSome ↔
      geometryOverflowCursor.num_triangles ≤ SM64_GEO_MAX_TRIANGLES) ∧
    (geometryOverflowCursor.colors.isSome ↔
      geometryOverflowCursor.num_triangles ≤ SM64_GEO_MAX_TRIANGLES) ∧
    (geometryOverflowCursor.uvs.isSome ↔
      geometryOverflowCursor.num_triangles ≤ SM64_GEO_MAX_TRIANGLES) :=
  iterator_truncation_slice_guard geometryOverflowCursor
    (by simp [geometryOverflowCursor, MarioGeometry.sized, MarioGeometry.new])

theorem decodeU16_pair (n : Nat) (h : n < 2 ^ 16) :
    decodeU16 (n % 2 ^ 8) (n / 2 ^ 8 % 2 ^ 8) = n := by
  simp only [decodeU16]
  omega

theorem decodeI16_of_u16 (n : Nat) (h : n < 2 ^ 15) :
    decodeI16 (n % 2 ^ 8) (n / 2 ^ 8 % 2 ^ 8) = (n : Int) := by
  simp only [decodeI16]
  split <;> omega

theorem decodeI16_pair (z : Int) (h : fitsI16 z) :
    decodeI16 ((z % 2 ^ 16).toNat % 2 ^ 8)
      ((z % 2 ^ 16).toNat / 2 ^ 8 % 2 ^ 8) = z := by
  obtain ⟨h1, h2⟩ := h
  simp only [decodeI16]
  split <;> omega

theorem surfaceVal_lt (k : Surface) : k.val < 2 ^ 15 := by
  cases k <;> decide

theorem terrainVal_lt (t : Terrain) : t.val < 2 ^ 16 := by
  cases t <;> decide

/-- C8: the wrapper's `LevelTriangle` is binary-compatible with the native
surface record: both occupy 24 bytes, and reinterpreting the bytes of any
`LevelTriangle` (whose `i16` fields are in range, as the Rust types
guarantee) as the native record recovers the same numeric surface-type
tag, the same force, the same terrain tag, and the same 3×3 matrix of
16-bit vertex components. -/
theorem levelTriangle_binary_compatible (t : LevelTriangle)
    (hforce : fitsI16 t.force)
    (hax : fitsI16 t.vertices.1.x) (hay : fitsI16 t.vertices.1.y)
    (haz : fitsI16 t.vertices.1.z)
    (hbx : fitsI16 t.vertices.2.1.x) (hby : fitsI16 t.vertices.2.1.y)
    (hbz : fitsI16 t.vertices.2.1.z)
    (hcx : fitsI16 t.vertices.2.2.x) (hcy : fitsI16 t.vertices.2.2.y)
    (hcz : fitsI16 t.vertices.2.2.z) :
    t.bytes.length = 24 ∧
    (∀ s : SM64Surface, s.bytes.length = 24) ∧
    parseSM64Surface t.bytes =
      some { type_ := (t.kind.val : Int)
             force := t.force
             terrain := t.terrain.val
             vertices :=
               ((t.vertices.1.x, t.vertices.1.y, t.vertices.1.z),
                (t.vertices.2.1.x, t.vertices.2.1.y, t.vertices.2.1.z),
                (t.vertices.2.2.x, t.vertices.2.2.y,
                  t.vertices.2.2.z)) } := by
  refine ⟨?_, ?_, ?_⟩
  · simp [LevelTriangle.bytes, u16le, i16le]
  · intro s
    simp [SM64Surface.bytes, u16le, i16le]
  · simp only [LevelTriangle.bytes, u16le, i16le, List.cons_append,
      List.nil_append, parseSM64Surface]
    rw [decodeI16_of_u16 _ (surfaceVal_lt t.kind),
      decodeU16_pair _ (terrainVal_lt t.terrain),
      decodeI16_pair _ hforce,
      decodeI16_pair _ hax, decodeI16_pair _ hay, decodeI16_pair _ haz,
      decodeI16_pair _ hbx, decodeI16_pair _ hby, decodeI16_pair _ hbz,
      decodeI16_pair _ hcx, decodeI16_pair _ hcy, decodeI16_pair _ hcz]

/-- The concrete triangle of the `correct_repr` test in `src/lib.rs`. -/
def testTriangle : LevelTriangle :=
  { kind := Surface.Default
    force := 333
    terrain := Terrain.Grass
    vertices := (⟨1, 2, 3⟩, ⟨4, 5, 6⟩, ⟨7, 8, 9⟩) }

/-- Witness for C8 at the `correct_repr` test triangle: size 24 on both
sides, and the reinterpreted fields are type tag 0, force 333, terrain 0,
vertices ((1,2,3),(4,5,6),(7,8,9)). -/
theorem levelTriangle_binary_compatible_witness :
    testTriangle.bytes.length = 24 ∧
    (∀ s : SM64Surface, s.bytes.length = 24) ∧
    parseSM64Surface testTriangle.bytes =
      some { type_ := (testTriangle.kind.val : Int)
             force := testTriangle.force
             terrain := testTriangle.terrain.val
             vertices :=
               ((testTriangle.vertices.1.x, testTriangle.vertices.1.y,
                  testTriangle.vertices.1.z),
                (testTriangle.vertices.2.1.x, testTriangle.vertices.2.1.y,
                  testTriangle.vertices.2.1.z),
                (testTriangle.vertices.2.2.x, testTriangle.vertices.2.2.y,
                  testTriangle.vertices.2.2.z)) } :=
  levelTriangle_binary_compatible testTriangle (by decide) (by decide)
    (by decide) (by decide) (by decide) (by decide) (by decide) (by decide)
    (by decide) (by decide)

end LibSm64
